import Mathlib

/-
Verification of the automatic DNS transport in
src/dns-transport/src/auto.rs.

The component composes two external sub-transports: a UDP transport that
is tried first, and a TCP transport that is tried exactly when the UDP
response carries the truncated flag.  The sub-transports themselves are
external collaborators (their code lives in other files of the crate), so
they are modelled as function parameters: a sub-transport behaviour maps
the address it was constructed with and the request to a result.
-/

namespace DnsTransport

/-- Flags of a DNS response; the core reads only the truncated bit. -/
structure Flags where
  truncated : Bool
  deriving DecidableEq

/-- A DNS response: flags plus opaque payload distinguishing responses. -/
structure Response where
  flags : Flags
  payload : Nat
  deriving DecidableEq

/-- A DNS request, opaque to the core. -/
structure Request where
  payload : Nat
  deriving DecidableEq

/-- A transport error, opaque to the core. -/
structure Error where
  code : Nat
  deriving DecidableEq

/-- Behaviour of an external sub-transport: given the address it was
constructed with and a request, it returns a response or an error. -/
def SendFn : Type := String → Request → Except Error Response

/-- The struct AutoTransport of auto.rs: it holds only the address. -/
structure AutoTransport where
  addr : String
  deriving DecidableEq

/-- AutoTransport.new of auto.rs: stores the (already converted) address
string, performing no validation and no sub-transport construction. -/
def AutoTransport.new (sa : String) : AutoTransport :=
  { addr := sa }

/-- Translation of AutoTransport::send in auto.rs, lines 50 to 63, with
the external UDP and TCP sub-transports passed as behaviours.  The match
on the UDP result embeds the question-mark operator on line 52: an error
is returned unchanged.  The truncated test mirrors line 54, and the TCP
branch embeds lines 60 to 62. -/
def AutoTransport.send (udp tcp : SendFn) (t : AutoTransport) (request : Request) :
    Except Error Response :=
  match udp t.addr request with
  | Except.error e => Except.error e
  | Except.ok udp_response =>
    if !udp_response.flags.truncated then
      Except.ok udp_response
    else
      match tcp t.addr request with
      | Except.error e => Except.error e
      | Except.ok tcp_response => Except.ok tcp_response

/-- An observable event of one send call: construction of a sub-transport
bound to an address, or a send attempt on a sub-transport. -/
inductive Event where
  | udpNew (addr : String)
  | udpSend (addr : String) (request : Request)
  | tcpNew (addr : String)
  | tcpSend (addr : String) (request : Request)
  deriving DecidableEq

/-- The address an event is bound to. -/
def Event.addr : Event → String
  | Event.udpNew a => a
  | Event.udpSend a _ => a
  | Event.tcpNew a => a
  | Event.tcpSend a _ => a

/-- Whether an event concerns the TCP (secondary) sub-transport. -/
def Event.isTcp : Event → Bool
  | Event.tcpNew _ => true
  | Event.tcpSend _ _ => true
  | _ => false

/-- Whether an event is a sub-transport send attempt. -/
def Event.isAttempt : Event → Bool
  | Event.udpSend _ _ => true
  | Event.tcpSend _ _ => true
  | _ => false

/-- Whether an event, if it is a send attempt, carries the given request. -/
def Event.carries (req : Request) : Event → Bool
  | Event.udpSend _ r => r == req
  | Event.tcpSend _ r => r == req
  | _ => true

/-- Instrumented translation of AutoTransport::send: same result as
AutoTransport.send, and additionally the ordered list of construction and
send events performed on the two sub-transports.  Line 51 constructs the
UDP transport, line 52 sends on it; on the truncated branch line 60
constructs the TCP transport and line 61 sends on it. -/
def AutoTransport.sendTrace (udp tcp : SendFn) (t : AutoTransport) (request : Request) :
    Except Error Response × List Event :=
  match udp t.addr request with
  | Except.error e =>
      (Except.error e, [Event.udpNew t.addr, Event.udpSend t.addr request])
  | Except.ok udp_response =>
    if !udp_response.flags.truncated then
      (Except.ok udp_response, [Event.udpNew t.addr, Event.udpSend t.addr request])
    else
      match tcp t.addr request with
      | Except.error e =>
          (Except.error e,
           [Event.udpNew t.addr, Event.udpSend t.addr request,
            Event.tcpNew t.addr, Event.tcpSend t.addr request])
      | Except.ok tcp_response =>
          (Except.ok tcp_response,
           [Event.udpNew t.addr, Event.udpSend t.addr request,
            Event.tcpNew t.addr, Event.tcpSend t.addr request])

/-- Consistency: the instrumented send computes the same result. -/
theorem sendTrace_fst (udp tcp : SendFn) (t : AutoTransport) (request : Request) :
    (t.sendTrace udp tcp request).1 = t.send udp tcp request := by
  unfold AutoTransport.sendTrace AutoTransport.send
  cases udp t.addr request with
  | error e => rfl
  | ok r =>
    cases hf : r.flags.truncated with
    | false => simp [hf]
    | true =>
      simp only [hf, Bool.not_true, if_neg]
      cases tcp t.addr request with
      | error e => simp
      | ok r2 => simp

/-- Characterization on the error branch: when the UDP attempt fails, the
call stops after the two UDP events with that error. -/
theorem sendTrace_udp_error (udp tcp : SendFn) (t : AutoTransport) (req : Request)
    (e : Error) (h : udp t.addr req = Except.error e) :
    t.sendTrace udp tcp req =
      (Except.error e, [Event.udpNew t.addr, Event.udpSend t.addr req]) := by
  unfold AutoTransport.sendTrace
  rw [h]

/-- Characterization on the fast path: a non-truncated UDP response is
returned after the two UDP events. -/
theorem sendTrace_udp_ok (udp tcp : SendFn) (t : AutoTransport) (req : Request)
    (r : Response) (h : udp t.addr req = Except.ok r) (hf : r.flags.truncated = false) :
    t.sendTrace udp tcp req =
      (Except.ok r, [Event.udpNew t.addr, Event.udpSend t.addr req]) := by
  unfold AutoTransport.sendTrace
  rw [h]
  simp [hf]

/-- Characterization on the fallback path: a truncated UDP response leads
to the four events and the TCP result, whatever it is. -/
theorem sendTrace_udp_truncated (udp tcp : SendFn) (t : AutoTransport) (req : Request)
    (r : Response) (h : udp t.addr req = Except.ok r) (hf : r.flags.truncated = true) :
    t.sendTrace udp tcp req =
      (tcp t.addr req,
       [Event.udpNew t.addr, Event.udpSend t.addr req,
        Event.tcpNew t.addr, Event.tcpSend t.addr req]) := by
  unfold AutoTransport.sendTrace
  rw [h]
  simp only [hf, Bool.not_true, Bool.false_eq_true, if_false]
  cases tcp t.addr req <;> rfl

/-- C1: every send call performs at most two sub-transport send attempts;
the trace is either the UDP-only prefix or the full four-event list, and
the TCP (second) attempt occurs exactly when the UDP attempt succeeded
with the truncated flag set. -/
theorem auto_send_attempt_invariant (udp tcp : SendFn) (t : AutoTransport) (req : Request) :
    ((t.sendTrace udp tcp req).2.countP Event.isAttempt ≤ 2) ∧
    (((t.sendTrace udp tcp req).2.any Event.isTcp) = true ↔
      ∃ r, udp t.addr req = Except.ok r ∧ r.flags.truncated = true) ∧
    ((t.sendTrace udp tcp req).2 = [Event.udpNew t.addr, Event.udpSend t.addr req] ∨
     (t.sendTrace udp tcp req).2 =
       [Event.udpNew t.addr, Event.udpSend t.addr req,
        Event.tcpNew t.addr, Event.tcpSend t.addr req]) := by
  cases hu : udp t.addr req with
  | error e =>
    rw [sendTrace_udp_error udp tcp t req e hu]
    refine ⟨by simp [List.countP, List.countP.go, Event.isAttempt], ?_, Or.inl rfl⟩
    constructor
    · intro h
      simp [List.any, Event.isTcp] at h
    · rintro ⟨r2, hr2, _⟩
      cases hr2
  | ok r =>
    cases hf : r.flags.truncated with
    | false =>
      rw [sendTrace_udp_ok udp tcp t req r hu hf]
      refine ⟨by simp [List.countP, List.countP.go, Event.isAttempt], ?_, Or.inl rfl⟩
      constructor
      · intro h
        simp [List.any, Event.isTcp] at h
      · rintro ⟨r2, hr2, ht⟩
        cases hr2
        rw [hf] at ht
        cases ht
    | true =>
      rw [sendTrace_udp_truncated udp tcp t req r hu hf]
      refine ⟨by simp [List.countP, List.countP.go, Event.isAttempt], ?_, Or.inr rfl⟩
      constructor
      · intro _
        exact ⟨r, rfl, hf⟩
      · intro _
        simp [List.any, Event.isTcp]

/-- C2: when the UDP attempt returns a non-truncated response, send
returns exactly that response, and no TCP event (construction or send)
occurs. -/
theorem auto_send_fast_path (udp tcp : SendFn) (t : AutoTransport) (req : Request)
    (r : Response) (h : udp t.addr req = Except.ok r) (hf : r.flags.truncated = false) :
    t.send udp tcp req = Except.ok r ∧
    ((t.sendTrace udp tcp req).2.any Event.isTcp) = false := by
  have hc := sendTrace_udp_ok udp tcp t req r h hf
  constructor
  · rw [← sendTrace_fst, hc]
  · rw [hc]
    simp [List.any, Event.isTcp]

/-- C3: when the UDP attempt returns a truncated response, the TCP
sub-transport is sent to exactly once, with the same request, and the
final result is exactly the TCP result, whatever it is. -/
theorem auto_send_fallback (udp tcp : SendFn) (t : AutoTransport) (req : Request)
    (r : Response) (h : udp t.addr req = Except.ok r) (hf : r.flags.truncated = true) :
    ((t.sendTrace udp tcp req).2.countP (fun e => e == Event.tcpSend t.addr req)) = 1 ∧
    t.send udp tcp req = tcp t.addr req := by
  have hc := sendTrace_udp_truncated udp tcp t req r h hf
  constructor
  · rw [hc]
    simp [List.countP, List.countP.go, beq_eq_decide]
  · rw [← sendTrace_fst, hc]

/-- C4: when the UDP attempt fails, send returns that same error and no
TCP event (construction or send) occurs. -/
theorem auto_send_udp_error_propagates (udp tcp : SendFn) (t : AutoTransport)
    (req : Request) (e : Error) (h : udp t.addr req = Except.error e) :
    t.send udp tcp req = Except.error e ∧
    ((t.sendTrace udp tcp req).2.any Event.isTcp) = false := by
  have hc := sendTrace_udp_error udp tcp t req e h
  constructor
  · rw [← sendTrace_fst, hc]
  · rw [hc]
    simp [List.any, Event.isTcp]

/-- C5: when the UDP response is truncated and the TCP attempt fails, the
final result is the TCP error; in particular the truncated UDP response
is discarded and no response at all is returned. -/
theorem auto_send_tcp_error_propagates (udp tcp : SendFn) (t : AutoTransport)
    (req : Request) (r : Response) (e : Error)
    (h : udp t.addr req = Except.ok r) (hf : r.flags.truncated = true)
    (h2 : tcp t.addr req = Except.error e) :
    t.send udp tcp req = Except.error e ∧
    ∀ r2 : Response, t.send udp tcp req ≠ Except.ok r2 := by
  have hc := sendTrace_udp_truncated udp tcp t req r h hf
  have hr : t.send udp tcp req = Except.error e := by
    rw [← sendTrace_fst, hc, h2]
  exact ⟨hr, fun r2 hcontra => by rw [hr] at hcontra; cases hcontra⟩

/-- C9: a truncated response returned by send can only be the TCP result,
obtained after a truncated UDP response. -/
theorem auto_send_truncated_result_from_tcp (udp tcp : SendFn) (t : AutoTransport)
    (req : Request) (r : Response)
    (h : t.send udp tcp req = Except.ok r) (hf : r.flags.truncated = true) :
    ∃ ru, udp t.addr req = Except.ok ru ∧ ru.flags.truncated = true ∧
      tcp t.addr req = Except.ok r := by
  cases hu : udp t.addr req with
  | error e =>
    rw [← sendTrace_fst, (sendTrace_udp_error udp tcp t req e hu)] at h
    cases h
  | ok ru =>
    cases hru : ru.flags.truncated with
    | false =>
      rw [← sendTrace_fst, (sendTrace_udp_ok udp tcp t req ru hu hru)] at h
      cases h
      rw [hru] at hf
      cases hf
    | true =>
      rw [← sendTrace_fst, (sendTrace_udp_truncated udp tcp t req ru hu hru)] at h
      exact ⟨ru, rfl, hru, h⟩

/-- C7: construction stores the given address unmodified, and every
sub-transport event of a subsequent send call is bound to that address. -/
theorem auto_new_binds_addr (sa : String) (udp tcp : SendFn) (req : Request) :
    (AutoTransport.new sa).addr = sa ∧
    (((AutoTransport.new sa).sendTrace udp tcp req).2.all (fun e => e.addr == sa)) = true := by
  refine ⟨rfl, ?_⟩
  cases hu : udp sa req with
  | error e =>
    rw [sendTrace_udp_error udp tcp (AutoTransport.new sa) req e hu]
    simp [List.all, Event.addr, AutoTransport.new]
  | ok r =>
    cases hru : r.flags.truncated with
    | false =>
      rw [sendTrace_udp_ok udp tcp (AutoTransport.new sa) req r hu hru]
      simp [List.all, Event.addr, AutoTransport.new]
    | true =>
      rw [sendTrace_udp_truncated udp tcp (AutoTransport.new sa) req r hu hru]
      simp [List.all, Event.addr, AutoTransport.new]

/-- C8: every sub-transport send event of a send call carries exactly the
request the caller passed in; the request value itself is immutable. -/
theorem auto_send_preserves_request (udp tcp : SendFn) (t : AutoTransport) (req : Request) :
    ((t.sendTrace udp tcp req).2.all (Event.carries req)) = true := by
  cases hu : udp t.addr req with
  | error e =>
    rw [sendTrace_udp_error udp tcp t req e hu]
    simp [List.all, Event.carries]
  | ok r =>
    cases hru : r.flags.truncated with
    | false =>
      rw [sendTrace_udp_ok udp tcp t req r hu hru]
      simp [List.all, Event.carries]
    | true =>
      rw [sendTrace_udp_truncated udp tcp t req r hu hru]
      simp [List.all, Event.carries]

/-- C10: construction is total over strings: for every address string,
including the empty or a syntactically invalid one, new simply stores it,
with no validation and no possibility of failure. -/
theorem auto_new_total (sa : String) : AutoTransport.new sa = { addr := sa } := rfl

/-- Behaviour of an external sub-transport when the outside world is
stateful: the network world of type s evolves with every attempt, so two
identical calls may see different worlds and answer differently. -/
def WSendFn (σ : Type) : Type := σ → String → Request → Except Error Response × σ

/-- Translation of AutoTransport::send threading an explicit world state
through the external sub-transport attempts.  The AutoTransport value
itself is taken by immutable reference in the source, so it is not
threaded: only the world evolves. -/
def AutoTransport.sendTraceW {σ : Type} (udp tcp : WSendFn σ) (t : AutoTransport)
    (request : Request) (s : σ) : (Except Error Response × List Event) × σ :=
  match udp s t.addr request with
  | (Except.error e, s1) =>
      ((Except.error e, [Event.udpNew t.addr, Event.udpSend t.addr request]), s1)
  | (Except.ok udp_response, s1) =>
    if !udp_response.flags.truncated then
      ((Except.ok udp_response, [Event.udpNew t.addr, Event.udpSend t.addr request]), s1)
    else
      match tcp s1 t.addr request with
      | (Except.error e, s2) =>
          ((Except.error e,
            [Event.udpNew t.addr, Event.udpSend t.addr request,
             Event.tcpNew t.addr, Event.tcpSend t.addr request]), s2)
      | (Except.ok tcp_response, s2) =>
          ((Except.ok tcp_response,
            [Event.udpNew t.addr, Event.udpSend t.addr request,
             Event.tcpNew t.addr, Event.tcpSend t.addr request]), s2)

/-- Characterization of the stateful translation on the error branch. -/
theorem sendTraceW_udp_error {σ : Type} (udp tcp : WSendFn σ) (t : AutoTransport)
    (req : Request) (s s1 : σ) (e : Error) (h : udp s t.addr req = (Except.error e, s1)) :
    t.sendTraceW udp tcp req s =
      ((Except.error e, [Event.udpNew t.addr, Event.udpSend t.addr req]), s1) := by
  unfold AutoTransport.sendTraceW
  rw [h]

/-- Characterization of the stateful translation on the fast path. -/
theorem sendTraceW_udp_ok {σ : Type} (udp tcp : WSendFn σ) (t : AutoTransport)
    (req : Request) (s s1 : σ) (r : Response)
    (h : udp s t.addr req = (Except.ok r, s1)) (hf : r.flags.truncated = false) :
    t.sendTraceW udp tcp req s =
      ((Except.ok r, [Event.udpNew t.addr, Event.udpSend t.addr req]), s1) := by
  unfold AutoTransport.sendTraceW
  rw [h]
  simp [hf]

/-- Characterization of the stateful translation on the fallback path. -/
theorem sendTraceW_udp_truncated {σ : Type} (udp tcp : WSendFn σ) (t : AutoTransport)
    (req : Request) (s s1 : σ) (r : Response)
    (h : udp s t.addr req = (Except.ok r, s1)) (hf : r.flags.truncated = true) :
    t.sendTraceW udp tcp req s =
      (((tcp s1 t.addr req).1,
        [Event.udpNew t.addr, Event.udpSend t.addr req,
         Event.tcpNew t.addr, Event.tcpSend t.addr req]),
       (tcp s1 t.addr req).2) := by
  unfold AutoTransport.sendTraceW
  rw [h]
  simp only [hf, Bool.not_true, Bool.false_eq_true, if_false]
  rcases tcp s1 t.addr req with ⟨res2, s2⟩
  cases res2 <;> rfl

/-- Consistency: with world-independent sub-transports, the stateful
translation computes the same result and trace as the pure one. -/
theorem sendTraceW_of_pure {σ : Type} (udp tcp : SendFn) (t : AutoTransport)
    (req : Request) (s : σ) :
    t.sendTraceW (fun s a r => (udp a r, s)) (fun s a r => (tcp a r, s)) req s =
      (t.sendTrace udp tcp req, s) := by
  cases hu : udp t.addr req with
  | error e =>
    rw [sendTraceW_udp_error (fun s a r => (udp a r, s)) (fun s a r => (tcp a r, s))
          t req s s e (by simp only [hu]),
        sendTrace_udp_error udp tcp t req e hu]
  | ok r =>
    cases hf : r.flags.truncated with
    | false =>
      rw [sendTraceW_udp_ok (fun s a r => (udp a r, s)) (fun s a r => (tcp a r, s))
            t req s s r (by simp only [hu]) hf,
          sendTrace_udp_ok udp tcp t req r hu hf]
    | true =>
      rw [sendTraceW_udp_truncated (fun s a r => (udp a r, s)) (fun s a r => (tcp a r, s))
            t req s s r (by simp only [hu]) hf,
          sendTrace_udp_truncated udp tcp t req r hu hf]

/-- Helper: in any world, a call falls back to TCP exactly when its own
UDP attempt, started in that world, returns a truncated response. -/
theorem sendTraceW_tcp_iff {σ : Type} (udp tcp : WSendFn σ) (t : AutoTransport)
    (req : Request) (s : σ) :
    (((t.sendTraceW udp tcp req s).1.2.any Event.isTcp) = true ↔
      ∃ r s1, udp s t.addr req = (Except.ok r, s1) ∧ r.flags.truncated = true) := by
  rcases hu : udp s t.addr req with ⟨res, s1⟩
  cases res with
  | error e =>
    rw [sendTraceW_udp_error udp tcp t req s s1 e hu]
    constructor
    · intro h
      simp [List.any, Event.isTcp] at h
    · rintro ⟨r2, s2, hr2, -⟩
      simp at hr2
  | ok r =>
    cases hf : r.flags.truncated with
    | false =>
      rw [sendTraceW_udp_ok udp tcp t req s s1 r hu hf]
      constructor
      · intro h
        simp [List.any, Event.isTcp] at h
      · rintro ⟨r2, s2, hr2, ht⟩
        simp only [Prod.mk.injEq, Except.ok.injEq] at hr2
        rcases hr2 with ⟨hr, -⟩
        subst hr
        rw [hf] at ht
        cases ht
    | true =>
      rw [sendTraceW_udp_truncated udp tcp t req s s1 r hu hf]
      constructor
      · intro _
        exact ⟨r, s1, rfl, hf⟩
      · intro _
        simp [List.any, Event.isTcp]

/-- Helper: in any world, every event of a call is bound to the address
stored in the AutoTransport value. -/
theorem sendTraceW_addr {σ : Type} (udp tcp : WSendFn σ) (t : AutoTransport)
    (req : Request) (s : σ) :
    (((t.sendTraceW udp tcp req s).1.2.all (fun e => e.addr == t.addr)) = true) := by
  rcases hu : udp s t.addr req with ⟨res, s1⟩
  cases res with
  | error e =>
    rw [sendTraceW_udp_error udp tcp t req s s1 e hu]
    simp [List.all, Event.addr]
  | ok r =>
    cases hf : r.flags.truncated with
    | false =>
      rw [sendTraceW_udp_ok udp tcp t req s s1 r hu hf]
      simp [List.all, Event.addr]
    | true =>
      rw [sendTraceW_udp_truncated udp tcp t req s s1 r hu hf]
      simp [List.all, Event.addr]

/-- C6: send carries no state of its own across invocations.  For two
sequential calls with the same request on the same instance, the second
call starting in the world the first call left behind, every event of
both calls is still bound to the originally stored address, and each call
falls back to TCP exactly when its own UDP attempt, in its own starting
world, returned a truncated response, independent of the other call. -/
theorem auto_send_no_carried_state {σ : Type} (udp tcp : WSendFn σ) (t : AutoTransport)
    (req : Request) (s0 : σ) :
    (((t.sendTraceW udp tcp req s0).1.2.all (fun e => e.addr == t.addr)) = true) ∧
    (((t.sendTraceW udp tcp req ((t.sendTraceW udp tcp req s0).2)).1.2.all
        (fun e => e.addr == t.addr)) = true) ∧
    (((t.sendTraceW udp tcp req s0).1.2.any Event.isTcp) = true ↔
      ∃ r s1, udp s0 t.addr req = (Except.ok r, s1) ∧ r.flags.truncated = true) ∧
    (((t.sendTraceW udp tcp req ((t.sendTraceW udp tcp req s0).2)).1.2.any Event.isTcp) = true ↔
      ∃ r s2, udp ((t.sendTraceW udp tcp req s0).2) t.addr req = (Except.ok r, s2) ∧
        r.flags.truncated = true) :=
  ⟨sendTraceW_addr udp tcp t req s0,
   sendTraceW_addr udp tcp t req ((t.sendTraceW udp tcp req s0).2),
   sendTraceW_tcp_iff udp tcp t req s0,
   sendTraceW_tcp_iff udp tcp t req ((t.sendTraceW udp tcp req s0).2)⟩

/-- Concrete UDP behaviour answering a non-truncated response. -/
def udpOkPlain : SendFn := fun _ _ => Except.ok { flags := { truncated := false }, payload := 2 }

/-- Concrete UDP behaviour answering a truncated response. -/
def udpOkTrunc : SendFn := fun _ _ => Except.ok { flags := { truncated := true }, payload := 1 }

/-- Concrete UDP behaviour that fails. -/
def udpFails : SendFn := fun _ _ => Except.error { code := 3 }

/-- Concrete TCP behaviour answering a response that is itself truncated. -/
def tcpOkTrunc : SendFn := fun _ _ => Except.ok { flags := { truncated := true }, payload := 6 }

/-- Concrete TCP behaviour that fails. -/
def tcpFails : SendFn := fun _ _ => Except.error { code := 5 }

/-- Witness for the fast path: a concrete non-truncated UDP answer is
returned as is and no TCP event occurs. -/
theorem auto_send_fast_path_witness :
    (AutoTransport.new "8.8.8.8").send udpOkPlain tcpFails { payload := 9 } =
      Except.ok { flags := { truncated := false }, payload := 2 } ∧
    (((AutoTransport.new "8.8.8.8").sendTrace udpOkPlain tcpFails { payload := 9 }).2.any
        Event.isTcp) = false :=
  auto_send_fast_path udpOkPlain tcpFails (AutoTransport.new "8.8.8.8") { payload := 9 }
    { flags := { truncated := false }, payload := 2 } rfl rfl

/-- Witness for the fallback path: after a concrete truncated UDP answer
the TCP result is returned even though it is itself truncated, and the
TCP send event with the same request occurs exactly once. -/
theorem auto_send_fallback_witness :
    (((AutoTransport.new "8.8.8.8").sendTrace udpOkTrunc tcpOkTrunc { payload := 9 }).2.countP
       (fun e => e == Event.tcpSend "8.8.8.8" { payload := 9 })) = 1 ∧
    (AutoTransport.new "8.8.8.8").send udpOkTrunc tcpOkTrunc { payload := 9 } =
      Except.ok { flags := { truncated := true }, payload := 6 } :=
  auto_send_fallback udpOkTrunc tcpOkTrunc (AutoTransport.new "8.8.8.8") { payload := 9 }
    { flags := { truncated := true }, payload := 1 } rfl rfl

/-- Witness for UDP error propagation at a concrete failing UDP. -/
theorem auto_send_udp_error_propagates_witness :
    (AutoTransport.new "8.8.8.8").send udpFails tcpOkTrunc { payload := 9 } =
      Except.error { code := 3 } ∧
    (((AutoTransport.new "8.8.8.8").sendTrace udpFails tcpOkTrunc { payload := 9 }).2.any
        Event.isTcp) = false :=
  auto_send_udp_error_propagates udpFails tcpOkTrunc (AutoTransport.new "8.8.8.8")
    { payload := 9 } { code := 3 } rfl

/-- Witness for TCP error propagation: truncated UDP answer, failing TCP,
final result is the TCP error. -/
theorem auto_send_tcp_error_propagates_witness :
    (AutoTransport.new "8.8.8.8").send udpOkTrunc tcpFails { payload := 9 } =
      Except.error { code := 5 } :=
  (auto_send_tcp_error_propagates udpOkTrunc tcpFails (AutoTransport.new "8.8.8.8")
    { payload := 9 } { flags := { truncated := true }, payload := 1 } { code := 5 }
    rfl rfl rfl).1

/-- Witness for the origin of a truncated final response at a concrete
run where both answers are truncated. -/
theorem auto_send_truncated_result_from_tcp_witness :
    ∃ ru, udpOkTrunc "8.8.8.8" { payload := 9 } = Except.ok ru ∧
      ru.flags.truncated = true ∧
      tcpOkTrunc "8.8.8.8" { payload := 9 } =
        Except.ok { flags := { truncated := true }, payload := 6 } :=
  auto_send_truncated_result_from_tcp udpOkTrunc tcpOkTrunc (AutoTransport.new "8.8.8.8")
    { payload := 9 } { flags := { truncated := true }, payload := 6 } rfl rfl

end DnsTransport
